import Mathlib

/-!
Verification development for the PropAI catalyst engine.

This file embeds, over exact arithmetic (Rat for the ingestion pipeline,
Real for the spatial decay model), the functions of the repository:

- state_incentives.py : passes_rules, normalize_float, normalize_int,
  normalize_year, classify_type_id, recency_tier_from_year, and the
  source adapter configuration records;
- catalyst_impact.py : haversine_miles, impact_weight, the CATALYST_TYPES
  catalog and compute_catalyst_score_for_parcel;
- main.py : the decay profile derivation performed by
  load_catalysts_from_supabase;
- import_catalysts.py : upsert_catalysts against a store modelled as an
  id-indexed record list.

Python floats are modelled as exact rationals or reals; Python builtin
float() and int() literal parsing is modelled by a decimal parser
covering sign, digits, fraction and exponent (the forms that occur in
the data paths of this repository; special forms such as inf, nan and
underscore separators are not modelled). Python truthiness tests on
numbers (if year:, or 10, or 0) are modelled explicitly, zero counting
as falsy.
-/

namespace PropAI

/-! ## Small Python string helpers (modelled on list of characters) -/

/-- Python str.strip: drop leading and trailing whitespace. -/
def pyStrip (cs : List Char) : List Char :=
  ((cs.dropWhile Char.isWhitespace).reverse.dropWhile Char.isWhitespace).reverse

/-- Python str.lower, restricted to the ASCII letters that the keyword
tables of this repository use. -/
def pyLower (s : String) : String :=
  String.mk (s.toList.map Char.toLower)

/-- Occurrence of `needle` as a contiguous substring of `hay`; models the
Python expression `needle in hay` on strings. -/
def listIsInfixOf (needle : List Char) : List Char → Bool
  | [] => needle.isEmpty
  | c :: t => needle.isPrefixOf (c :: t) || listIsInfixOf needle t

/-- String containment, models `kw in s` for Python strings. -/
def strContains (hay kw : String) : Bool :=
  listIsInfixOf kw.toList hay.toList

/-- All-digit run parsed as a natural number; fails on the empty run or on
any non-digit, as Python int() does on such input. -/
def parseNatDigits (cs : List Char) : Option ℕ :=
  if cs.isEmpty || !cs.all Char.isDigit then Option.none
  else some (cs.foldl (fun a c => 10 * a + (c.toNat - 48)) 0)

/-- Optional leading sign, returning the sign factor and the rest. -/
def parseSign (cs : List Char) : ℤ × List Char :=
  match cs with
  | '+' :: r => (1, r)
  | '-' :: r => (-1, r)
  | r => (1, r)

/-- Split at the first character satisfying `p`; the second component is
`none` when no such character occurs. -/
def splitFirst (p : Char → Bool) : List Char → List Char × Option (List Char)
  | [] => ([], Option.none)
  | c :: r =>
    if p c then ([], some r)
    else
      let t := splitFirst p r
      (c :: t.1, t.2)

/-- Numeric value of a digit run (0 on the empty run). -/
def digitsVal (cs : List Char) : ℕ :=
  cs.foldl (fun a c => 10 * a + (c.toNat - 48)) 0

/-- Unsigned decimal mantissa: digits with an optional single decimal
point; at least one digit is required overall, as for Python float(). -/
def parseMantissa (cs : List Char) : Option ℚ :=
  let t := splitFirst (fun c => c = '.') cs
  match t.2 with
  | Option.none => (parseNatDigits cs).map (fun n => (n : ℚ))
  | some fp =>
    if t.1.isEmpty && fp.isEmpty then Option.none
    else if t.1.all Char.isDigit && fp.all Char.isDigit then
      some ((digitsVal t.1 : ℚ) + (digitsVal fp : ℚ) / 10 ^ fp.length)
    else Option.none

/-- Python float() on a cleaned literal: optional sign, decimal mantissa,
optional exponent part. Returns none where float() raises ValueError. -/
def pyFloat (cs : List Char) : Option ℚ :=
  let s := parseSign cs
  let t := splitFirst (fun c => c = 'e' || c = 'E') s.2
  match t.2 with
  | Option.none => (parseMantissa s.2).map (fun m => (s.1 : ℚ) * m)
  | some ecs =>
    let es := parseSign ecs
    match parseMantissa t.1, parseNatDigits es.2 with
    | some m, some e => some ((s.1 : ℚ) * m * (10 : ℚ) ^ ((es.1 : ℤ) * (e : ℤ)))
    | _, _ => Option.none

/-- Python int() on a literal: optional sign then digits. -/
def pyInt (cs : List Char) : Option ℤ :=
  let s := parseSign cs
  match parseNatDigits s.2 with
  | Option.none => Option.none
  | some n => some (s.1 * (n : ℤ))

/-- Python round: round half to even (banker rounding), as used by
normalize_int via int(round(f)). -/
def py_round (q : ℚ) : ℤ :=
  let f := ⌊q⌋
  let frac := q - (f : ℚ)
  if frac < 1/2 then f
  else if 1/2 < frac then f + 1
  else if f % 2 = 0 then f else f + 1

/-! ## state_incentives.py -/

/-- Loosely typed values reaching the normalizers: Python None, a native
number, or a string, the shapes produced by csv.DictReader and by the
JSON source rows. -/
inductive PyVal where
  | none : PyVal
  | num : ℚ → PyVal
  | str : String → PyVal

/-- Per-source field mapping configuration (StateSourceConfig in
state_incentives.py). -/
structure StateSourceConfig where
  state_code : String
  name : String
  url : String
  format : String
  capex_field : String
  jobs_field : String
  lat_field : String
  lng_field : String
  year_field : String
  project_name_field : String
  sector_field : Option String
  default_type_id : String

def MIN_CAPEX : ℚ := 50000000

def MIN_JOBS : ℤ := 200

def MAX_AGE_YEARS : ℤ := 7

/-- passes_rules from state_incentives.py. The clock read
datetime.utcnow().year is passed in as now_year. The Python guard
`if year:` is truthiness: both None and the number 0 skip the age
check, which the embedding states explicitly. -/
def passes_rules (now_year : ℤ) (capex_usd : Option ℚ) (jobs : Option ℤ)
    (year : Option ℤ) : Bool :=
  let age_reject :=
    match year with
    | Option.none => false
    | some y => decide (y ≠ 0) && decide (now_year - y > MAX_AGE_YEARS)
  if age_reject then false
  else
    (match capex_usd with
     | some c => decide (c ≥ MIN_CAPEX)
     | Option.none => false) ||
    (match jobs with
     | some j => decide (j ≥ MIN_JOBS)
     | Option.none => false)

/-- The cleaning step of normalize_float: strip, then delete every comma
and dollar sign (replace with the empty string deletes each occurrence,
which equals filtering those characters out). -/
def pyClean (s : String) : List Char :=
  (pyStrip s.toList).filter (fun c => !(c = ',' || c = '$'))

/-- normalize_float from state_incentives.py. -/
def normalize_float (v : PyVal) : Option ℚ :=
  match v with
  | PyVal.none => Option.none
  | PyVal.num q => some q
  | PyVal.str s =>
    let cs := pyClean s
    if cs.isEmpty then Option.none else pyFloat cs

/-- normalize_int from state_incentives.py: int(round(f)) on the
normalized float. -/
def normalize_int (v : PyVal) : Option ℤ :=
  match normalize_float v with
  | Option.none => Option.none
  | some f => some (py_round f)

/-- normalize_year from state_incentives.py, for the string-or-absent
inputs that the CSV and JSON year fields of this repository can carry:
strip, require at least four characters, parse the leading four as an
integer. -/
def normalize_year (v : Option String) : Option ℤ :=
  match v with
  | Option.none => Option.none
  | some str =>
    let s := pyStrip str.toList
    if 4 ≤ s.length then pyInt (s.take 4) else Option.none

/-- classify_type_id from state_incentives.py. The Python guard
`if not sector:` is true for None and for the empty string. -/
def classify_type_id (sector : Option String) (cfg : StateSourceConfig) :
    String :=
  match sector with
  | Option.none => cfg.default_type_id
  | some sec =>
    if sec = "" then cfg.default_type_id
    else
      let s := pyLower sec
      if strContains s "battery" || strContains s "ev" then "ev_gigafactory"
      else if strContains s "auto" then "auto_assembly"
      else if strContains s "semi" || strContains s "chip" then "semiconductor_fab"
      else if strContains s "logistic" || strContains s "distribution" ||
              strContains s "fulfillment" then "logistics_hub"
      else if strContains s "data center" then "data_center_cluster"
      else if strContains s "hydrogen" || strContains s "solar" ||
              strContains s "wind" then "energy_cluster"
      else cfg.default_type_id

/-- The ordered keyword groups of the classifier, as data. Each entry is
the keyword group together with the category that the first matching
group yields. -/
def CLASSIFY_RULES : List (List String × String) :=
  [ (["battery", "ev"], "ev_gigafactory"),
    (["auto"], "auto_assembly"),
    (["semi", "chip"], "semiconductor_fab"),
    (["logistic", "distribution", "fulfillment"], "logistics_hub"),
    (["data center"], "data_center_cluster"),
    (["hydrogen", "solar", "wind"], "energy_cluster") ]

/-- First matching rule of an ordered rule list, top to bottom. -/
def chain_lookup (s : String) : List (List String × String) → Option String
  | [] => Option.none
  | r :: rest =>
    if r.1.any (fun kw => strContains s kw) then some r.2
    else chain_lookup s rest

/-- The classifier as the specification words it: lower-case the sector,
walk the ordered keyword groups, first match wins, otherwise the adapter
default. Stated from the specification for comparison with
classify_type_id. -/
def chain_classify (sector : Option String) (cfg : StateSourceConfig) :
    String :=
  match sector with
  | Option.none => cfg.default_type_id
  | some sec =>
    if sec = "" then cfg.default_type_id
    else (chain_lookup (pyLower sec) CLASSIFY_RULES).getD cfg.default_type_id

/-- recency_tier_from_year from state_incentives.py; `if not year:` is
truthiness, so year 0 also yields no tier. -/
def recency_tier_from_year (now : ℤ) (year : Option ℤ) : Option String :=
  match year with
  | Option.none => Option.none
  | some y =>
    if y = 0 then Option.none
    else
      let age := now - y
      if age ≤ 1 then some "A"
      else if age ≤ 3 then some "B"
      else if age ≤ 5 then some "C"
      else some "D"

/-- The Ohio entry of STATE_SOURCES in state_incentives.py. -/
def OHIO_SOURCE : StateSourceConfig :=
  { state_code := "OH"
    name := "Ohio Tax Credit Projects"
    url := "https://development.ohio.gov/static/business/Excel/All_Approved_TCA_Projects.csv"
    format := "csv"
    capex_field := "Capital_Investment"
    jobs_field := "Jobs_Created"
    lat_field := "Latitude"
    lng_field := "Longitude"
    year_field := "Year"
    project_name_field := "Project_Name"
    sector_field := some "NAICS"
    default_type_id := "industrial_megaproject" }

/-! ## catalyst_impact.py -/

open Real in
/-- math.radians: degrees to radians. -/
noncomputable def radians (x : ℝ) : ℝ := x * (Real.pi / 180)

/-- math.atan2 over the reals, by quadrant. -/
noncomputable def atan2 (y x : ℝ) : ℝ :=
  if 0 < x then Real.arctan (y / x)
  else if x < 0 ∧ 0 ≤ y then Real.arctan (y / x) + Real.pi
  else if x < 0 ∧ y < 0 then Real.arctan (y / x) - Real.pi
  else if x = 0 ∧ 0 < y then Real.pi / 2
  else if x = 0 ∧ y < 0 then -(Real.pi / 2)
  else 0

/-- haversine_miles from catalyst_impact.py: great circle distance on a
sphere of radius 6371 km, converted to miles. -/
noncomputable def haversine_miles (lat1 lon1 lat2 lon2 : ℝ) : ℝ :=
  let R_km : ℝ := 6371
  let d_lat := radians (lat2 - lat1)
  let d_lon := radians (lon2 - lon1)
  let a := Real.sin (d_lat / 2) ^ 2 +
    Real.cos (radians lat1) * Real.cos (radians lat2) * Real.sin (d_lon / 2) ^ 2
  let c := 2 * atan2 (Real.sqrt a) (Real.sqrt (1 - a))
  R_km * c * 0.621371

/-- impact_weight from catalyst_impact.py: full impact inside r_peak,
exponential tail between r_peak and r_max, zero beyond r_max. -/
noncomputable def impact_weight (distance_miles r_peak r_max k : ℝ) : ℝ :=
  if distance_miles ≤ r_peak then 1
  else if distance_miles ≥ r_max then 0
  else Real.exp (-(distance_miles - r_peak) / max k 1e-6)

/-- CatalystTypeProfile from catalyst_impact.py. -/
structure CatalystTypeProfile where
  type_id : String
  label : String
  r_peak_miles : ℝ
  r_max_miles : ℝ
  decay_k_miles : ℝ
  base_strength : ℝ

/-- CatalystInstance from catalyst_impact.py: exactly the five fields of
the dataclass. -/
structure CatalystInstance where
  id : String
  type_id : String
  name : String
  lat : ℝ
  lng : ℝ

/-- CATALYST_TYPES from catalyst_impact.py: the twelve catalog entries in
source order, keyed by type id, as a Python dict with distinct keys. -/
def CATALYST_TYPES_LIST : List (String × CatalystTypeProfile) :=
  [ ("ev_gigafactory",
      ⟨"ev_gigafactory", "EV / Battery Gigafactory", 10, 60, 8, 1⟩),
    ("auto_tier1",
      ⟨"auto_tier1", "Automotive Tier-1 Supplier", 5, 20, 4, 0.8⟩),
    ("semiconductor_fab",
      ⟨"semiconductor_fab", "Semiconductor Fab", 15, 70, 10, 1.1⟩),
    ("logistics_hub",
      ⟨"logistics_hub", "Logistics / Intermodal Hub", 4, 15, 3, 0.9⟩),
    ("fulfillment_center",
      ⟨"fulfillment_center", "E-commerce Fulfillment Center", 5, 20, 4, 0.7⟩),
    ("port",
      ⟨"port", "Port / Marine Terminal", 10, 50, 8, 1⟩),
    ("rail_terminal",
      ⟨"rail_terminal", "Rail / Intermodal Terminal", 6, 25, 5, 0.8⟩),
    ("airport",
      ⟨"airport", "Commercial Airport", 8, 35, 6, 0.9⟩),
    ("power_plant",
      ⟨"power_plant", "Power Plant / Major Substation", 5, 25, 4, 0.9⟩),
    ("government_complex",
      ⟨"government_complex", "Government / Civic Complex", 3, 15, 3, 0.7⟩),
    ("university_cluster",
      ⟨"university_cluster", "University / Research Cluster", 5, 25, 5, 0.85⟩),
    ("data_center_cluster",
      ⟨"data_center_cluster", "Data Center Cluster", 3, 12, 2.5, 0.8⟩) ]

/-- The lookup CATALYST_TYPES.get(type_id): the profile stored under the
key, none when the key is absent. -/
def CATALYST_TYPES (t : String) : Option CatalystTypeProfile :=
  Option.map Prod.snd (CATALYST_TYPES_LIST.find? (fun e => e.1 == t))

/-- One iteration of the aggregation loop of
compute_catalyst_score_for_parcel: the accumulator is the pair
(total, strength_sum); a catalyst with no catalog profile or with weight
at most zero leaves the accumulator unchanged (continue). -/
noncomputable def scoreStep (parcel_lat parcel_lng : ℝ) (acc : ℝ × ℝ)
    (c : CatalystInstance) : ℝ × ℝ :=
  match CATALYST_TYPES c.type_id with
  | Option.none => acc
  | some profile =>
    if impact_weight (haversine_miles parcel_lat parcel_lng c.lat c.lng)
        profile.r_peak_miles profile.r_max_miles profile.decay_k_miles ≤ 0
    then acc
    else
      (acc.1 +
        impact_weight (haversine_miles parcel_lat parcel_lng c.lat c.lng)
          profile.r_peak_miles profile.r_max_miles profile.decay_k_miles *
          profile.base_strength,
       acc.2 + profile.base_strength)

/-- compute_catalyst_score_for_parcel from catalyst_impact.py: the pair
accumulated by the loop is (total, strength_sum); empty input and zero
strength_sum return 0.0; otherwise the ratio clamped to [0, 1.5]. -/
noncomputable def compute_catalyst_score_for_parcel (parcel_lat parcel_lng : ℝ)
    (catalysts : List CatalystInstance) : ℝ :=
  if catalysts.isEmpty then 0
  else if (catalysts.foldl (scoreStep parcel_lat parcel_lng) (0, 0)).2 = 0 then 0
  else max 0
    (min ((catalysts.foldl (scoreStep parcel_lat parcel_lng) (0, 0)).1 /
          (catalysts.foldl (scoreStep parcel_lat parcel_lng) (0, 0)).2) 1.5)

/-! ## main.py : profile derivation in load_catalysts_from_supabase -/

/-- The decay profile values that load_catalysts_from_supabase computes
for a loaded row. Gathered in a structure because main.py passes them as
keyword arguments to the CatalystInstance constructor (which has no such
fields; see the C1 analysis). -/
structure LoadedProfile where
  r_peak_miles : ℝ
  r_max_miles : ℝ
  decay_k_miles : ℝ
  base_strength : ℝ

/-- The derivation in load_catalysts_from_supabase, main.py lines 40-55:
radius := float(row.get("radius_miles") or 10) (truthiness: absent or
zero becomes 10), r_peak = radius, r_max = radius * 2.5,
decay_k = max(1.0, radius / 3); capex := row.get("capex_usd") or 0,
jobs := row.get("jobs_estimated") or 0, then base_strength from the
first positive of capex, jobs, defaulting to 1.0. -/
noncomputable def derive_profile (radius_miles : Option ℝ)
    (capex_usd : Option ℝ) (jobs_estimated : Option ℝ) : LoadedProfile :=
  let radius : ℝ :=
    match radius_miles with
    | Option.none => 10
    | some r => if r = 0 then 10 else r
  let capex : ℝ := capex_usd.getD 0
  let jobs : ℝ := jobs_estimated.getD 0
  let base_strength : ℝ :=
    if 0 < capex then max 0.5 (Real.logb 10 capex)
    else if 0 < jobs then max 0.5 (jobs / 500)
    else 1
  { r_peak_miles := radius
    r_max_miles := radius * 2.5
    decay_k_miles := max 1 (radius / 3)
    base_strength := base_strength }

/-! ## import_catalysts.py : upsert_catalysts -/

/-- The field set of a candidate catalyst row built by the ingestion
pipeline (make_catalyst in import_catalysts.py and the row dictionaries
of state_incentives.py). -/
structure CatRow where
  name : String
  state : String
  type : String
  lat : ℚ
  lng : ℚ
  radius_miles : ℚ
  capex_usd : Option ℚ
  jobs_estimated : Option ℤ
  recency_tier : Option String
  announced_at : Option String
deriving DecidableEq

/-- The catalyst store (specification section 6): records carry a
store-assigned id; insert appends with the next fresh id. -/
structure StoreState where
  recs : List (ℕ × CatRow)
  nextId : ℕ
deriving DecidableEq

/-- The operation performed for one candidate row. -/
inductive UpsertOp where
  | inserted : UpsertOp
  | updated : UpsertOp
deriving DecidableEq

/-- The store lookup select().eq(name).eq(state).eq(type): every record
whose (name, state, type) triple matches exactly, in store order. -/
def find_by_key (st : StoreState) (n s t : String) : List (ℕ × CatRow) :=
  st.recs.filter
    (fun r => r.2.name == n && r.2.state == s && r.2.type == t)

/-- One iteration of the loop of upsert_catalysts: if any record matches
the key, overwrite all fields of the first match under its existing id;
otherwise insert the row as a new record. -/
def upsert_one (st : StoreState) (row : CatRow) : StoreState × UpsertOp :=
  match find_by_key st row.name row.state row.type with
  | [] =>
    ({ recs := st.recs ++ [(st.nextId, row)], nextId := st.nextId + 1 },
     UpsertOp.inserted)
  | (i, _) :: _ =>
    ({ recs := st.recs.map (fun r => if r.1 = i then (i, row) else r),
       nextId := st.nextId },
     UpsertOp.updated)

/-- upsert_catalysts from import_catalysts.py: process the candidate rows
in order against the store, recording the operation performed for each. -/
def upsert_catalysts (st : StoreState) (rows : List CatRow) :
    StoreState × List UpsertOp :=
  rows.foldl
    (fun acc row =>
      let r := upsert_one acc.1 row
      (r.1, acc.2 ++ [r.2]))
    (st, [])

/-! ## Helper lemmas -/

lemma radians_zero : radians 0 = 0 := by
  simp [radians]

lemma atan2_zero_one : atan2 0 1 = 0 := by
  unfold atan2
  rw [if_pos (by norm_num : (0:ℝ) < 1)]
  simp [Real.arctan_zero]

lemma atan2_one_zero : atan2 1 0 = Real.pi / 2 := by
  unfold atan2
  rw [if_neg (by norm_num), if_neg (by norm_num), if_neg (by norm_num),
    if_pos (by norm_num : (0:ℝ) = 0 ∧ (0:ℝ) < 1)]

lemma haversine_self (lat lon : ℝ) : haversine_miles lat lon lat lon = 0 := by
  unfold haversine_miles
  simp [radians, Real.sin_zero, Real.sqrt_zero, Real.sqrt_one, atan2_zero_one]

lemma haversine_pole :
    haversine_miles 90 0 (-90) 0 = 6371 * Real.pi * 0.621371 := by
  have h1 : radians ((-90 : ℝ) - 90) / 2 = -(Real.pi / 2) := by
    unfold radians; ring
  have h2 : radians ((0 : ℝ) - 0) / 2 = 0 := by
    unfold radians; ring
  simp only [haversine_miles]
  rw [h1, h2]
  rw [Real.sin_neg, Real.sin_pi_div_two, Real.sin_zero]
  norm_num
  rw [atan2_one_zero]
  ring

lemma haversine_pole_lb : 60 ≤ haversine_miles 90 0 (-90) 0 := by
  rw [haversine_pole]
  nlinarith [Real.pi_gt_three]

lemma haversine_pole_ub : haversine_miles 90 0 (-90) 0 ≤ 20000 := by
  rw [haversine_pole]
  nlinarith [Real.pi_lt_d2]

lemma max_k_pos (k : ℝ) : 0 < max k 1e-6 :=
  lt_of_lt_of_le (by norm_num) (le_max_right k _)

lemma impact_weight_nonneg (d p m k : ℝ) : 0 ≤ impact_weight d p m k := by
  unfold impact_weight
  split_ifs
  · norm_num
  · norm_num
  · exact le_of_lt (Real.exp_pos _)

lemma impact_weight_le_one (d p m k : ℝ) : impact_weight d p m k ≤ 1 := by
  unfold impact_weight
  split_ifs with h1 h2
  · norm_num
  · norm_num
  · have hd : 0 ≤ d - p := by push_neg at h1; linarith
    have he : -(d - p) / max k 1e-6 ≤ 0 := by
      rw [neg_div]
      exact neg_nonpos_of_nonneg (div_nonneg hd (le_of_lt (max_k_pos k)))
    calc Real.exp (-(d - p) / max k 1e-6) ≤ Real.exp 0 :=
          Real.exp_le_exp.mpr he
      _ = 1 := Real.exp_zero

lemma impact_weight_far (d p m k : ℝ) (hpm : p < m) (hd : m ≤ d) :
    impact_weight d p m k = 0 := by
  unfold impact_weight
  rw [if_neg (by push_neg; linarith), if_pos (by exact hd)]

lemma impact_weight_near (d p m k : ℝ) (hd : d ≤ p) :
    impact_weight d p m k = 1 := by
  unfold impact_weight
  rw [if_pos hd]

lemma impact_weight_mono (p m k d1 d2 : ℝ) (h12 : d1 < d2) :
    impact_weight d2 p m k ≤ impact_weight d1 p m k := by
  by_cases h1 : d1 ≤ p
  · rw [impact_weight_near d1 p m k h1]
    exact impact_weight_le_one d2 p m k
  · push_neg at h1
    by_cases h2 : m ≤ d2
    · have w2 : impact_weight d2 p m k = 0 := by
        unfold impact_weight
        rw [if_neg (not_le.mpr (by linarith)), if_pos h2]
      rw [w2]
      exact impact_weight_nonneg d1 p m k
    · push_neg at h2
      have w1 : impact_weight d1 p m k =
          Real.exp (-(d1 - p) / max k 1e-6) := by
        unfold impact_weight
        rw [if_neg (not_le.mpr h1), if_neg (not_le.mpr (by linarith))]
      have w2 : impact_weight d2 p m k =
          Real.exp (-(d2 - p) / max k 1e-6) := by
        unfold impact_weight
        rw [if_neg (not_le.mpr (by linarith)), if_neg (not_le.mpr h2)]
      rw [w1, w2]
      apply Real.exp_le_exp.mpr
      rw [neg_div, neg_div]
      exact neg_le_neg ((div_le_div_iff_of_pos_right (max_k_pos k)).mpr (by linarith))

lemma CATALYST_TYPES_facts (t : String) (pr : CatalystTypeProfile)
    (h : CATALYST_TYPES t = some pr) :
    0 < pr.base_strength ∧ pr.r_peak_miles < pr.r_max_miles := by
  unfold CATALYST_TYPES at h
  obtain ⟨e, hfind, hsnd⟩ := Option.map_eq_some'.mp h
  have hmem := List.mem_of_find?_eq_some hfind
  subst hsnd
  simp only [CATALYST_TYPES_LIST, List.mem_cons, List.not_mem_nil,
    or_false] at hmem
  rcases hmem with h|h|h|h|h|h|h|h|h|h|h|h <;> subst h <;>
    constructor <;> norm_num

lemma scoreStep_some (plat plng : ℝ) (acc : ℝ × ℝ) (c : CatalystInstance)
    (pr : CatalystTypeProfile) (hp : CATALYST_TYPES c.type_id = some pr) :
    scoreStep plat plng acc c =
      if impact_weight (haversine_miles plat plng c.lat c.lng)
          pr.r_peak_miles pr.r_max_miles pr.decay_k_miles ≤ 0
      then acc
      else
        (acc.1 +
          impact_weight (haversine_miles plat plng c.lat c.lng)
            pr.r_peak_miles pr.r_max_miles pr.decay_k_miles *
            pr.base_strength,
         acc.2 + pr.base_strength) := by
  unfold scoreStep
  rw [hp]

lemma scoreStep_none (plat plng : ℝ) (acc : ℝ × ℝ) (c : CatalystInstance)
    (hp : CATALYST_TYPES c.type_id = Option.none) :
    scoreStep plat plng acc c = acc := by
  unfold scoreStep
  rw [hp]

lemma scoreStep_far (plat plng : ℝ) (acc : ℝ × ℝ) (c : CatalystInstance)
    (pr : CatalystTypeProfile) (hp : CATALYST_TYPES c.type_id = some pr)
    (hd : pr.r_max_miles ≤ haversine_miles plat plng c.lat c.lng) :
    scoreStep plat plng acc c = acc := by
  rw [scoreStep_some plat plng acc c pr hp,
    impact_weight_far _ _ _ _ (CATALYST_TYPES_facts _ _ hp).2 hd]
  simp

lemma scoreStep_inv (plat plng : ℝ) (acc : ℝ × ℝ) (c : CatalystInstance)
    (h0 : 0 ≤ acc.1) (h1 : acc.1 ≤ acc.2) :
    0 ≤ (scoreStep plat plng acc c).1 ∧
      (scoreStep plat plng acc c).1 ≤ (scoreStep plat plng acc c).2 := by
  cases hp : CATALYST_TYPES c.type_id with
  | none => rw [scoreStep_none plat plng acc c hp]; exact ⟨h0, h1⟩
  | some pr =>
    rw [scoreStep_some plat plng acc c pr hp]
    split_ifs with hw
    · exact ⟨h0, h1⟩
    · push_neg at hw
      have hs := (CATALYST_TYPES_facts _ _ hp).1
      have hw1 := impact_weight_le_one
        (haversine_miles plat plng c.lat c.lng) pr.r_peak_miles
        pr.r_max_miles pr.decay_k_miles
      constructor
      · dsimp only
        nlinarith
      · dsimp only
        nlinarith

lemma foldl_inv (plat plng : ℝ) (l : List CatalystInstance) :
    ∀ acc : ℝ × ℝ, 0 ≤ acc.1 → acc.1 ≤ acc.2 →
      0 ≤ (l.foldl (scoreStep plat plng) acc).1 ∧
        (l.foldl (scoreStep plat plng) acc).1 ≤
          (l.foldl (scoreStep plat plng) acc).2 := by
  induction l with
  | nil => intro acc h0 h1; exact ⟨h0, h1⟩
  | cons c t ih =>
    intro acc h0 h1
    have h := scoreStep_inv plat plng acc c h0 h1
    exact ih _ h.1 h.2

lemma score_bounds (plat plng : ℝ) (l : List CatalystInstance) :
    0 ≤ compute_catalyst_score_for_parcel plat plng l ∧
      compute_catalyst_score_for_parcel plat plng l ≤ 1 := by
  unfold compute_catalyst_score_for_parcel
  split_ifs with h1 h2
  · norm_num
  · norm_num
  · constructor
    · exact le_max_left 0 _
    · have hinv := foldl_inv plat plng l (0, 0) (le_refl 0) (le_refl 0)
      have hpos : 0 < (l.foldl (scoreStep plat plng) (0, 0)).2 :=
        lt_of_le_of_ne (le_trans hinv.1 hinv.2) (Ne.symm h2)
      have hq : (l.foldl (scoreStep plat plng) (0, 0)).1 /
          (l.foldl (scoreStep plat plng) (0, 0)).2 ≤ 1 :=
        (div_le_one hpos).mpr hinv.2
      exact max_le (by norm_num) (le_trans (min_le_left _ _) hq)

lemma score_skip_unknown (plat plng : ℝ) (l1 l2 : List CatalystInstance)
    (c : CatalystInstance) (hp : CATALYST_TYPES c.type_id = Option.none) :
    compute_catalyst_score_for_parcel plat plng (l1 ++ c :: l2) =
      compute_catalyst_score_for_parcel plat plng (l1 ++ l2) := by
  have hfold : ∀ acc : ℝ × ℝ,
      (l1 ++ c :: l2).foldl (scoreStep plat plng) acc =
        (l1 ++ l2).foldl (scoreStep plat plng) acc := by
    intro acc
    rw [List.foldl_append, List.foldl_append, List.foldl_cons,
      scoreStep_none plat plng _ c hp]
  by_cases hnil : l1 ++ l2 = []
  · obtain ⟨rfl, rfl⟩ := List.append_eq_nil.mp hnil
    simp only [List.nil_append]
    unfold compute_catalyst_score_for_parcel
    rw [List.foldl_cons, List.foldl_nil, scoreStep_none plat plng _ c hp]
    simp
  · have e1 : (l1 ++ c :: l2).isEmpty = (l1 ++ l2).isEmpty := by
      cases h1 : l1 ++ l2 with
      | nil => exact absurd h1 hnil
      | cons a t =>
        cases l1 with
        | nil => cases l2 with
          | nil => simp at h1
          | cons b u => simp
        | cons b u => simp
    unfold compute_catalyst_score_for_parcel
    rw [hfold, e1]

lemma port_profile_lookup :
    CATALYST_TYPES "port" =
      some ⟨"port", "Port / Marine Terminal", 10, 50, 8, 1⟩ := rfl

lemma ev_profile_lookup :
    CATALYST_TYPES "ev_gigafactory" =
      some ⟨"ev_gigafactory", "EV / Battery Gigafactory", 10, 60, 8, 1⟩ := rfl

lemma derive_profile_20000 :
    derive_profile (some 20000) Option.none Option.none =
      ⟨20000, 50000, 20000 / 3, 1⟩ := by
  unfold derive_profile
  dsimp only [Option.getD]
  rw [if_neg (by norm_num : ¬(20000 : ℝ) = 0)]
  rw [if_neg (by norm_num : ¬(0 : ℝ) < 0)]
  rw [if_neg (by norm_num : ¬(0 : ℝ) < 0)]
  rw [max_eq_right (by norm_num : (1 : ℝ) ≤ 20000 / 3)]
  norm_num

/-! ## Claims -/

/-- C1: the claim states that the loaded record profile is derived as
peakRadius = radiusMiles, maxRadius = 2.5 x radiusMiles,
decayConstant = max(1, radiusMiles / 3), baseStrength from capex, jobs
or 1.0, AND that the aggregator scores every catalyst from the profile
carried by that record. The first part matches
load_catalysts_from_supabase, but the aggregator does not: this theorem
exhibits a loaded record (stored radius 20000, no capex, no jobs, type
ev_gigafactory, at the antipode of the query point) whose record-derived
profile gives full weight 1 at the query distance, while
compute_catalyst_score_for_parcel, which reads its parameters from the
static CATALYST_TYPES catalog instead, scores the parcel 0. The
construction is also inconsistent in the source itself: main.py passes
r_peak_miles, r_max_miles, decay_k_miles, base_strength to the
CatalystInstance constructor, but the CatalystInstance dataclass of
catalyst_impact.py has no such fields. -/
theorem c1_loader_aggregator_divergence :
    derive_profile (some 20000) Option.none Option.none =
      ⟨20000, 50000, 20000 / 3, 1⟩ ∧
    impact_weight (haversine_miles 90 0 (-90) 0) 20000 50000 (20000 / 3) = 1 ∧
    compute_catalyst_score_for_parcel 90 0
      [⟨"c1", "ev_gigafactory", "GM Ultium Lansing", -90, 0⟩] = 0 := by
  refine ⟨derive_profile_20000, ?_, ?_⟩
  · exact impact_weight_near _ _ _ _ (le_trans haversine_pole_ub (by norm_num))
  · have h1 : scoreStep 90 0 (0, 0)
        ⟨"c1", "ev_gigafactory", "GM Ultium Lansing", -90, 0⟩ = (0, 0) := by
      apply scoreStep_far 90 0 (0, 0) _
        ⟨"ev_gigafactory", "EV / Battery Gigafactory", 10, 60, 8, 1⟩
        ev_profile_lookup
      dsimp only
      exact le_trans (by norm_num) haversine_pole_lb
    unfold compute_catalyst_score_for_parcel
    rw [List.foldl_cons, List.foldl_nil, h1]
    simp

/-- C2: a catalyst whose type id has no entry in the CATALYST_TYPES
catalog contributes nothing: inserting it anywhere in the catalyst list
leaves the aggregate score unchanged, and the three type ids the
classifier can produce that are absent from the catalog
(industrial_megaproject, auto_assembly, energy_cluster) are indeed
absent. -/
theorem c2_unknown_type_never_contributes :
    (∀ (plat plng : ℝ) (l1 l2 : List CatalystInstance)
        (c : CatalystInstance),
      CATALYST_TYPES c.type_id = Option.none →
      compute_catalyst_score_for_parcel plat plng (l1 ++ c :: l2) =
        compute_catalyst_score_for_parcel plat plng (l1 ++ l2)) ∧
    CATALYST_TYPES "industrial_megaproject" = Option.none ∧
    CATALYST_TYPES "auto_assembly" = Option.none ∧
    CATALYST_TYPES "energy_cluster" = Option.none :=
  ⟨score_skip_unknown, rfl, rfl, rfl⟩

/-- Witness for C2 at a concrete input: an industrial_megaproject record
added to the empty list leaves the score unchanged. -/
theorem c2_witness :
    compute_catalyst_score_for_parcel 0 0
        ([] ++ (⟨"x", "industrial_megaproject", "P", 0, 0⟩ :
          CatalystInstance) :: []) =
      compute_catalyst_score_for_parcel 0 0 ([] ++ []) :=
  c2_unknown_type_never_contributes.1 0 0 [] []
    ⟨"x", "industrial_megaproject", "P", 0, 0⟩ rfl

/-- C3 counterexample: the claim predicts, for a full-weight catalyst at
the query point (port profile, strength 1) plus a zero-weight catalyst
(a port beyond its 50 mile max radius, here at the antipode), an
aggregate of (1 x 1 + 0 x 1) / (1 + 1) = 0.5, strictly below 1. The
code skips a zero-weight catalyst before accumulating its strength
(continue on w <= 0), so the aggregate is exactly 1. -/
theorem c3_counterexample :
    impact_weight (haversine_miles 90 0 (-90) 0) 10 50 8 = 0 ∧
    compute_catalyst_score_for_parcel 90 0
      [⟨"c1", "port", "A", 90, 0⟩, ⟨"c2", "port", "B", -90, 0⟩] = 1 := by
  constructor
  · exact impact_weight_far _ _ _ _ (by norm_num)
      (le_trans (by norm_num) haversine_pole_lb)
  · have h1 : scoreStep 90 0 (0, 0) ⟨"c1", "port", "A", 90, 0⟩ = (1, 1) := by
      rw [scoreStep_some 90 0 (0, 0) _
        ⟨"port", "Port / Marine Terminal", 10, 50, 8, 1⟩ port_profile_lookup]
      dsimp only
      rw [haversine_self, impact_weight_near 0 10 50 8 (by norm_num)]
      norm_num
    have h2 : scoreStep 90 0 (1, 1) ⟨"c2", "port", "B", -90, 0⟩ = (1, 1) := by
      apply scoreStep_far 90 0 (1, 1) _
        ⟨"port", "Port / Marine Terminal", 10, 50, 8, 1⟩ port_profile_lookup
      dsimp only
      exact le_trans (by norm_num) haversine_pole_lb
    unfold compute_catalyst_score_for_parcel
    rw [List.foldl_cons, List.foldl_cons, List.foldl_nil, h1, h2]
    norm_num

/-- C3 amended: a catalyst at or beyond its catalog max radius has decay
weight 0 and is skipped from both the weighted sum and the strength sum,
so its presence leaves the aggregate of the remaining catalyst
unchanged (the two-catalyst aggregate equals the one-catalyst
aggregate, not (1 x 1 + 0 x s2) / (1 + s2)). -/
theorem c3_zero_weight_catalyst_dropped :
    ∀ (plat plng : ℝ) (c1 c2 : CatalystInstance)
      (pr2 : CatalystTypeProfile),
      CATALYST_TYPES c2.type_id = some pr2 →
      pr2.r_max_miles ≤ haversine_miles plat plng c2.lat c2.lng →
      compute_catalyst_score_for_parcel plat plng [c1, c2] =
        compute_catalyst_score_for_parcel plat plng [c1] := by
  intro plat plng c1 c2 pr2 hp hd
  have hf : List.foldl (scoreStep plat plng) (0, 0) [c1, c2] =
      List.foldl (scoreStep plat plng) (0, 0) [c1] := by
    rw [List.foldl_cons, List.foldl_cons, List.foldl_nil, List.foldl_cons,
      List.foldl_nil, scoreStep_far plat plng _ c2 pr2 hp hd]
  unfold compute_catalyst_score_for_parcel
  rw [hf]
  simp

/-- Witness for C3 amended at the concrete two-port input. -/
theorem c3_witness :
    compute_catalyst_score_for_parcel 90 0
        [⟨"c1", "port", "A", 90, 0⟩, ⟨"c2", "port", "B", -90, 0⟩] =
      compute_catalyst_score_for_parcel 90 0 [⟨"c1", "port", "A", 90, 0⟩] :=
  c3_zero_weight_catalyst_dropped 90 0 ⟨"c1", "port", "A", 90, 0⟩
    ⟨"c2", "port", "B", -90, 0⟩ ⟨"port", "Port / Marine Terminal", 10, 50, 8, 1⟩
    port_profile_lookup (le_trans (by norm_num) haversine_pole_lb)

/-- C4 counterexample: the claim asserts that some finite, valid input
with overlapping high-strength catalysts produces a score above 1.0.
This proves its negation: every decay weight is at most 1 and the
strength sum only accumulates over contributing catalysts, so the score
never exceeds 1 for any query point and any catalyst list. -/
theorem c4_counterexample :
    ¬ ∃ (plat plng : ℝ) (l : List CatalystInstance),
      1 < compute_catalyst_score_for_parcel plat plng l :=
  fun h =>
    absurd h.choose_spec.choose_spec.choose_spec
      (not_lt.mpr
        (score_bounds h.choose h.choose_spec.choose
          h.choose_spec.choose_spec.choose).2)

/-- C4 amended: the aggregate is the weighted sum over contributing
catalysts divided by their strength sum, clamped to [0, 1.5]; since
every weight lies in [0, 1] the ratio never exceeds 1, so the score
always lies in [0, 1] and the 1.5 ceiling is unreachable. -/
theorem c4_score_always_in_unit_interval :
    ∀ (plat plng : ℝ) (l : List CatalystInstance),
      0 ≤ compute_catalyst_score_for_parcel plat plng l ∧
        compute_catalyst_score_for_parcel plat plng l ≤ 1 :=
  score_bounds

/-- Witness for C4 amended at a concrete input. -/
theorem c4_witness :
    0 ≤ compute_catalyst_score_for_parcel 0 0
        [⟨"c1", "port", "A", 0, 0⟩] ∧
      compute_catalyst_score_for_parcel 0 0 [⟨"c1", "port", "A", 0, 0⟩] ≤ 1 :=
  c4_score_always_in_unit_interval 0 0 [⟨"c1", "port", "A", 0, 0⟩]

/-- C5 counterexample: at current year 2026, a row with qualifying capex
and year 0 passes, although the claim requires rejection (the year is
known and its age 2026 exceeds 7): the Python guard `if year:` treats
year 0 as absent and skips the age check. -/
theorem c5_counterexample :
    passes_rules 2026 (some 60000000) Option.none (some 0) = true ∧
    (some (0 : ℤ) ≠ (Option.none : Option ℤ)) ∧
    ¬((2026 : ℤ) - 0 ≤ 7) := by
  refine ⟨by decide, by decide, by decide⟩

/-- C5 amended: passes_rules(capex, jobs, year) is true iff (the year is
unknown OR zero -- Python truthiness treats year 0 like an absent year
-- or the age now - year is at most 7) and (capex is known with
capex at least 50,000,000 or jobs is known with jobs at least 200); in
particular capex 60,000,000 with year 2023 qualifies at current year
2026, and jobs 100 without capex does not, and a row with no year is
never rejected on age. -/
theorem c5_passes_rules_characterization :
    (∀ (now_year : ℤ) (capex : Option ℚ) (jobs : Option ℤ)
        (year : Option ℤ),
      passes_rules now_year capex jobs year = true ↔
        ((year = Option.none ∨ year = some 0 ∨
            ∃ y, year = some y ∧ now_year - y ≤ 7) ∧
          ((∃ c, capex = some c ∧ 50000000 ≤ c) ∨
            (∃ j, jobs = some j ∧ 200 ≤ j)))) ∧
    passes_rules 2026 (some 60000000) Option.none (some 2023) = true ∧
    passes_rules 2026 Option.none (some 100) (some 2023) = false := by
  refine ⟨?_, by decide, by decide⟩
  intro now_year capex jobs year
  unfold passes_rules MIN_CAPEX MIN_JOBS MAX_AGE_YEARS
  cases year with
  | none =>
    cases capex <;> cases jobs <;> simp
  | some y =>
    by_cases hy : y = 0
    · subst hy
      cases capex <;> cases jobs <;> simp
    · by_cases hage : now_year - y > 7
      · cases capex <;> cases jobs <;> simp [hy, hage] <;> omega
      · cases capex <;> cases jobs <;> simp [hy, hage] <;> omega

/-- Witness for C5 amended: the characterization applied at a concrete
row with no year and qualifying capex. -/
theorem c5_witness :
    passes_rules 2026 (some 60000000) Option.none Option.none = true :=
  (c5_passes_rules_characterization.1 2026 (some 60000000) Option.none
    Option.none).mpr
    ⟨Or.inl rfl, Or.inl ⟨60000000, rfl, by norm_num⟩⟩

/-- C6 counterexample: the claim asserts weight exactly 0.0 whenever
distance is at least maxRadius, for every parameter combination. With
the degenerate parameters peakRadius 10, maxRadius 5 at distance 7 the
distance reaches maxRadius, yet the code returns 1.0 because the
distance is still inside peakRadius, which is checked first. -/
theorem c6_counterexample :
    (7 : ℝ) ≥ 5 ∧ impact_weight 7 10 5 1 = 1 ∧ impact_weight 7 10 5 1 ≠ 0 := by
  refine ⟨by norm_num, impact_weight_near 7 10 5 1 (by norm_num), ?_⟩
  rw [impact_weight_near 7 10 5 1 (by norm_num)]
  norm_num

/-- C6 amended: for every distance at least 0 and all parameters, the
weight is exactly 1.0 when distance is at most peakRadius; exactly 0.0
when distance is at least maxRadius AND beyond peakRadius (the
full-impact check takes precedence for degenerate parameters with
maxRadius at most peakRadius); and otherwise
exp(-(distance - peakRadius) / max(decayConstant, 1e-6)), total also
for non-positive decayConstant. -/
theorem c6_weight_piecewise :
    ∀ d p m k : ℝ, 0 ≤ d →
      (d ≤ p → impact_weight d p m k = 1) ∧
      (p < d → m ≤ d → impact_weight d p m k = 0) ∧
      (p < d → d < m →
        impact_weight d p m k = Real.exp (-(d - p) / max k 1e-6)) := by
  intro d p m k hd0
  refine ⟨fun h => impact_weight_near d p m k h, fun h1 h2 => ?_,
    fun h1 h2 => ?_⟩
  · unfold impact_weight
    rw [if_neg (not_le.mpr h1), if_pos h2]
  · unfold impact_weight
    rw [if_neg (not_le.mpr h1), if_neg (not_le.mpr h2)]

/-- Witness for C6 amended: the three cases evaluated at concrete
inputs with peakRadius 5 and maxRadius 10. -/
theorem c6_witness :
    impact_weight 3 5 10 2 = 1 ∧ impact_weight 12 5 10 2 = 0 ∧
      impact_weight 7 5 10 2 = Real.exp (-(7 - 5) / max 2 1e-6) :=
  ⟨(c6_weight_piecewise 3 5 10 2 (by norm_num)).1 (by norm_num),
   (c6_weight_piecewise 12 5 10 2 (by norm_num)).2.1 (by norm_num)
     (by norm_num),
   (c6_weight_piecewise 7 5 10 2 (by norm_num)).2.2 (by norm_num)
     (by norm_num)⟩

/-- C7: with fixed parameters satisfying maxRadius above peakRadius at
least 0, the decay weight never increases with distance, and every
weight lies in [0, 1]. -/
theorem c7_weight_monotone_and_bounded :
    ∀ p m k : ℝ, 0 ≤ p → p < m →
      (∀ d1 d2 : ℝ, d1 < d2 →
        impact_weight d2 p m k ≤ impact_weight d1 p m k) ∧
      (∀ d : ℝ, 0 ≤ d →
        0 ≤ impact_weight d p m k ∧ impact_weight d p m k ≤ 1) :=
  fun p m k _ _ =>
    ⟨fun d1 d2 h12 => impact_weight_mono p m k d1 d2 h12,
     fun d _ => ⟨impact_weight_nonneg d p m k, impact_weight_le_one d p m k⟩⟩

/-- Witness for C7 at peakRadius 5, maxRadius 10, decayConstant 2 and
distances 6 and 20. -/
theorem c7_witness :
    impact_weight 20 5 10 2 ≤ impact_weight 6 5 10 2 ∧
      0 ≤ impact_weight 6 5 10 2 ∧ impact_weight 6 5 10 2 ≤ 1 :=
  ⟨(c7_weight_monotone_and_bounded 5 10 2 (by norm_num) (by norm_num)).1
      6 20 (by norm_num),
   (c7_weight_monotone_and_bounded 5 10 2 (by norm_num) (by norm_num)).2
      6 (by norm_num)⟩

/-- C8: the classifier equals the deterministic order-sensitive chain
that lower-cases the sector and returns the category of the first
keyword group matching by substring, falling back to the adapter
default; an absent sector always yields the adapter default.
Determinism for equal inputs is immediate because the embedding is a
pure function of sector and adapter. -/
theorem c8_classifier_deterministic_chain :
    ∀ (sector : Option String) (cfg : StateSourceConfig),
      classify_type_id sector cfg = chain_classify sector cfg ∧
      (sector = Option.none →
        classify_type_id sector cfg = cfg.default_type_id) := by
  intro sector cfg
  constructor
  · cases sector with
    | none => rfl
    | some sec =>
      unfold classify_type_id chain_classify
      dsimp only
      by_cases h0 : sec = ""
      · rw [if_pos h0, if_pos h0]
      · rw [if_neg h0, if_neg h0]
        simp only [CLASSIFY_RULES, chain_lookup, List.any_cons, List.any_nil,
          Bool.or_false, Bool.or_assoc]
        split_ifs <;> rfl
  · intro h
    subst h
    rfl

/-- Witness for C8: the chain agreement on a concrete sector string and
the default fallback for an absent sector, on the Ohio adapter. -/
theorem c8_witness :
    classify_type_id (some "Battery Manufacturing") OHIO_SOURCE =
      chain_classify (some "Battery Manufacturing") OHIO_SOURCE ∧
    classify_type_id Option.none OHIO_SOURCE = OHIO_SOURCE.default_type_id :=
  ⟨(c8_classifier_deterministic_chain (some "Battery Manufacturing")
      OHIO_SOURCE).1,
   (c8_classifier_deterministic_chain Option.none OHIO_SOURCE).2 rfl⟩

/-- C9: reconciling the same candidate row twice against an initially
empty store performs exactly one insert then one update on the same
identity, leaving one record whose fields equal the candidate, and a
second run with the identical input leaves the store unchanged. -/
theorem c9_upsert_keyed_idempotent (row : CatRow) :
    upsert_catalysts ⟨[], 0⟩ [row, row] =
      (⟨[(0, row)], 1⟩, [UpsertOp.inserted, UpsertOp.updated]) ∧
    (upsert_catalysts (upsert_catalysts ⟨[], 0⟩ [row, row]).1
        [row, row]).1 =
      (upsert_catalysts ⟨[], 0⟩ [row, row]).1 := by
  have h1 : upsert_catalysts ⟨[], 0⟩ [row, row] =
      (⟨[(0, row)], 1⟩, [UpsertOp.inserted, UpsertOp.updated]) := by
    simp [upsert_catalysts, upsert_one, find_by_key]
  refine ⟨h1, ?_⟩
  rw [h1]
  simp [upsert_catalysts, upsert_one, find_by_key]

/-- Witness for C9 at a concrete seed row. -/
theorem c9_witness :
    upsert_catalysts ⟨[], 0⟩
        [⟨"GM Ultium Lansing", "MI", "ev_gigafactory", 42708/1000,
            -84668/1000, 10, some 2100000000, some 1700, some "B",
            some "2022-01-01T00:00:00Z"⟩,
         ⟨"GM Ultium Lansing", "MI", "ev_gigafactory", 42708/1000,
            -84668/1000, 10, some 2100000000, some 1700, some "B",
            some "2022-01-01T00:00:00Z"⟩] =
      (⟨[(0, ⟨"GM Ultium Lansing", "MI", "ev_gigafactory", 42708/1000,
            -84668/1000, 10, some 2100000000, some 1700, some "B",
            some "2022-01-01T00:00:00Z"⟩)], 1⟩,
       [UpsertOp.inserted, UpsertOp.updated]) :=
  (c9_upsert_keyed_idempotent
    ⟨"GM Ultium Lansing", "MI", "ev_gigafactory", 42708/1000,
      -84668/1000, 10, some 2100000000, some 1700, some "B",
      some "2022-01-01T00:00:00Z"⟩).1

/-- C10 counterexample: at the current year 2026 the example row with
announced year 2022 has age 4, so recency_tier_from_year yields tier C,
not tier B as the claim asserts. -/
theorem c10_counterexample :
    recency_tier_from_year 2026 (some 2022) = some "C" ∧
    recency_tier_from_year 2026 (some 2022) ≠ some "B" := by
  refine ⟨by decide, by decide⟩

/-- C10 amended: the row with capex "$2,100,000,000", jobs "1700" and
year "2022" normalizes to capexUsd 2.1e9, jobsEstimated 1700,
announcedYear 2022 (separators and currency symbols stripped, empty or
unparsable values becoming absent), passes the qualification rule, and
infers recency tier C at the current year 2026 (tier B only at current
year 2024 or 2025, when the age is 2 or 3). -/
theorem c10_seed_row_normalization :
    normalize_float (PyVal.str "$2,100,000,000") = some 2100000000 ∧
    normalize_int (PyVal.str "1700") = some 1700 ∧
    normalize_year (some "2022") = some 2022 ∧
    normalize_float (PyVal.str "") = Option.none ∧
    normalize_float (PyVal.str "n/a") = Option.none ∧
    passes_rules 2026 (some 2100000000) (some 1700) (some 2022) = true ∧
    recency_tier_from_year 2026 (some 2022) = some "C" ∧
    recency_tier_from_year 2024 (some 2022) = some "B" ∧
    recency_tier_from_year 2025 (some 2022) = some "B" := by
  refine ⟨?_, ?_, by decide, by decide, by decide, by decide, by decide,
    by decide, by decide⟩
  · rw [show normalize_float (PyVal.str "$2,100,000,000") =
        some ((1 : ℚ) * ((2100000000 : ℕ) : ℚ)) from rfl]
    norm_num
  · rw [show normalize_int (PyVal.str "1700") =
        some (py_round ((1 : ℚ) * ((1700 : ℕ) : ℚ))) from rfl]
    norm_num [py_round]

end PropAI
